import Mathlib

/-!
# Serial-over-Ethernet (SoE) bridging system — verification of the session core

A shallow embedding of the session engines of the three SoE roles:

* `serial_server_0.0.53_LinWin.py` — the server's per-connection receive loop
  (`main`, lines 925–1007) and the serial→socket relay (`serial_to_socket`,
  lines 503–514);
* `serial_bridge_0.0.70_LinWin.py` — the bridge's connect-time sends and its
  network receive handling (`SerialBridgeNode.run`, lines 698–802);
* `serial_client_0.0.56_LinWin.py` — the client's connect-time sends
  (`SoEClient.run`, lines 511–517) and receive thread (`_receive_thread`,
  lines 267–323).

Byte strings are modelled as `List Char` (the programs treat network data as
bytes and decode them as text with a lossless-for-ASCII replacement policy;
all control traffic is ASCII).  Python's `pat in data`, `data.split(pat)`,
`s.strip()` and the two regex substitutions used by the bridge and client are
reproduced byte-for-byte by the helpers below.
-/

namespace SoE

abbrev Bytes := List Char

/-- Byte-string literal: the characters of a Lean string. -/
def bs (s : String) : Bytes := s.data

/-- `leadsWith pat s`: `s` starts with `pat`. -/
def leadsWith : Bytes → Bytes → Bool
  | [], _ => true
  | _ :: _, [] => false
  | a :: as, b :: bb => a == b && leadsWith as bb

/-- `hasSub pat s`: `pat` occurs as a contiguous run inside `s`
(Python's `pat in data` on `bytes`/`str`). -/
def hasSub (pat : Bytes) : Bytes → Bool
  | [] => leadsWith pat []
  | c :: rest => leadsWith pat (c :: rest) || hasSub pat rest

/-- Suffix of `s` following the first occurrence of `pat`
(`[]` when `pat` does not occur). -/
def afterFirst (pat : Bytes) : Bytes → Bytes
  | [] => []
  | c :: rest =>
    if leadsWith pat (c :: rest) then (c :: rest).drop pat.length
    else afterFirst pat rest

/-- Longest prefix of `s` not containing `pat`; the whole of `s` when `pat`
does not occur.  `upToFirst pat (afterFirst pat s)` is Python's
`s.split(pat)[1]`. -/
def upToFirst (pat : Bytes) : Bytes → Bytes
  | [] => []
  | c :: rest =>
    if leadsWith pat (c :: rest) then []
    else c :: upToFirst pat rest

/-- All the segments of Python's `s.split(pat)` (fuel-driven; fuel
`s.length + 1` always suffices because each step drops at least one byte). -/
def splitSubGo (pat : Bytes) : Nat → Bytes → List Bytes
  | 0, s => [s]
  | Nat.succ fuel, s =>
    if hasSub pat s then upToFirst pat s :: splitSubGo pat fuel (afterFirst pat s)
    else [s]

/-- Python's `s.split(pat)`. -/
def pySplit (pat s : Bytes) : List Bytes := splitSubGo pat (s.length + 1) s

/-- Python's notion of whitespace for `str.strip()`. -/
def isWs (c : Char) : Bool :=
  c == ' ' || c == '\t' || c == '\n' || c == '\r' || c == '\x0b' || c == '\x0c'

/-- Python's `s.strip()`. -/
def pyStrip (s : Bytes) : Bytes :=
  ((s.dropWhile isWs).reverse.dropWhile isWs).reverse

/-- `int(s)` restricted to the non-negative decimal numerals the protocol
actually carries (`MY_KA_TIMEOUT_<n>`); anything else is a parse failure,
which the source swallows with `except: pass`. -/
def parseNatB (s : Bytes) : Option Nat :=
  if s ≠ [] && s.all (fun c => '0' ≤ c && c ≤ '9') then
    some (s.foldl (fun acc c => acc * 10 + (c.toNat - '0'.toNat)) 0)
  else none

/-! ## Protocol constants (identical in all three programs) -/

def ASK_CMD : Bytes := bs "__#ASK_COM_PARAMS#__"
def DISCONNECT_CMD : Bytes := bs "__#DISCONNECT#__"
def KEEPALIVE_CMD : Bytes := bs "__#KEEPALIVE#__"
def GETVER_CMD : Bytes := bs "__#GETVER#__"
def GET_KA_TIMEOUT_CMD : Bytes := bs "__#GET_KA_TIMEOUT#__"
def MY_KA_TIMEOUT_CMD : Bytes := bs "__#MY_KA_TIMEOUT_"
def BAD_PWD_MSG : Bytes := bs "__#BADPWD#__"

end SoE

namespace SoE

/-! ## Server (`serial_server_0.0.53_LinWin.py`) -/

/-- The server options the session loop reads (`args.pwd`, `args.comport`,
`args.baud`, `args.line`, `args.keepalive`, `__CODE_VERSION__`). -/
structure ServerCfg where
  pwd : Option Bytes
  comport : Bytes
  baud : Bytes
  line : Bytes
  keepalive : Bytes
  version : Bytes

/-- Per-session mutable state: `b_state['authorized']`, `packet_buffer`,
`state.client_type`, `state.client_ver`, `state.remote_params`, and the
session byte counters `state.session_stats["in"]`/`["out"]`. -/
structure ServerSt where
  authorized : Bool
  packetBuffer : Bytes
  clientType : Bytes
  clientVer : Bytes
  remoteParams : Bytes
  inBytes : Nat
  outBytes : Nat

/-- Convenience constructor used in theorem statements. -/
def mkSt (auth : Bool) (pb ct cv rp : Bytes) (ib ob : Nat) : ServerSt :=
  ⟨auth, pb, ct, cv, rp, ib, ob⟩

/-- `b_state = {'authorized': not args.pwd}` plus the per-session resets of
line 900. -/
def initSt (cfg : ServerCfg) : ServerSt :=
  ⟨cfg.pwd.isNone, [], bs "??", [], bs "?? ?? ??", 0, 0⟩

/-- `f"__#COM_PARAMS_{state.args.comport} {state.args.baud} {state.args.line}#__"` -/
def comParamsFrame (cfg : ServerCfg) : Bytes :=
  bs "__#COM_PARAMS_" ++ cfg.comport ++ bs " " ++ cfg.baud ++ bs " " ++ cfg.line ++ bs "#__"

/-- `f"__#SRV_VER_{__CODE_VERSION__}#__"` -/
def srvVerFrame (cfg : ServerCfg) : Bytes :=
  bs "__#SRV_VER_" ++ cfg.version ++ bs "#__"

/-- `f"__#MY_KA_TIMEOUT_{state.args.keepalive}#__"` -/
def myKaFrame (cfg : ServerCfg) : Bytes :=
  MY_KA_TIMEOUT_CMD ++ cfg.keepalive ++ bs "#__"

/-- Result of one iteration of the server's receive loop on one recv chunk:
the new session state, the control frames sent to the socket (in order), the
bytes written to the serial endpoint, whether the loop `break`s, and the
milliseconds slept before breaking (`time.sleep(0.5)` on a bad password). -/
structure SrvStep where
  st : ServerSt
  sent : List Bytes
  serialOut : Bytes
  broke : Bool
  delayMs : Nat

/-- Accumulator of the `for part in decoded_str.split('__#')` loop at
lines 950–958. -/
structure VerAcc where
  st : ServerSt
  sent : List Bytes

/-- One `part` of the `_VER_` identification loop (lines 950–958): on a part
containing `BR_VER_` or `CL_VER_` record the peer type and version; when no
password is configured also authorize and (for a bridge) send
`COM_PARAMS` + `ASK_COM_PARAMS`. -/
def verScanPart (cfg : ServerCfg) (acc : VerAcc) (part : Bytes) : VerAcc :=
  if hasSub (bs "BR_VER_") part || hasSub (bs "CL_VER_") part then
    let ctype := if hasSub (bs "CL_VER") part then bs "CL" else bs "BR"
    let cver := upToFirst (bs "#") (upToFirst (bs "VER_") (afterFirst (bs "VER_") part))
    let st1 := { acc.st with clientType := ctype, clientVer := cver }
    if cfg.pwd.isNone then
      let st2 := { st1 with authorized := true }
      if ctype == bs "BR" then
        { st := st2, sent := acc.sent ++ [comParamsFrame cfg, ASK_CMD] }
      else { st := st2, sent := acc.sent }
    else { st := st1, sent := acc.sent }
  else acc

/-- Lines 948–959: the `if b"_VER_" in data` guard around the part loop. -/
def verFold (cfg : ServerCfg) (st : ServerSt) (data : Bytes) : VerAcc :=
  if hasSub (bs "_VER_") data then
    (pySplit (bs "__#") data).foldl (verScanPart cfg) ⟨st, []⟩
  else ⟨st, []⟩

/-- Lines 960–964: unconditional replies to `GETVER`, `GET_KA_TIMEOUT` and
`ASK_COM_PARAMS` — note that none of them consults `b_state['authorized']`. -/
def queryReplies (cfg : ServerCfg) (data : Bytes) : List Bytes :=
  (if hasSub GETVER_CMD data then [srvVerFrame cfg] else [])
    ++ (if hasSub GET_KA_TIMEOUT_CMD data then [myKaFrame cfg] else [])
    ++ (if hasSub ASK_CMD data then [comParamsFrame cfg] else [])

/-- Lines 967–972: `decoded_str.split("__#COM_PARAMS_")[1].split("#__")[0].strip()`. -/
def comParamsUpdate (st : ServerSt) (data : Bytes) : ServerSt :=
  if hasSub (bs "__#COM_PARAMS_") data then
    { st with remoteParams :=
        pyStrip (upToFirst (bs "#__")
          (upToFirst (bs "__#COM_PARAMS_") (afterFirst (bs "__#COM_PARAMS_") data))) }
  else st

/-- `decoded_str.split("__#PWD_")[1].split("#")[0]` (line 976). -/
def extractPwd (data : Bytes) : Bytes :=
  upToFirst (bs "#") (upToFirst (bs "__#PWD_") (afterFirst (bs "__#PWD_") data))

/-- Result of the password block. -/
structure PwdRes where
  st : ServerSt
  sent : List Bytes
  broke : Bool
  delayMs : Nat

/-- Lines 974–983: compare the extracted password against `args.pwd`
(a comparison against a missing password never succeeds, exactly as
`received_pwd == None` is false in the source); on success authorize and,
only when the peer identified as a bridge, send `COM_PARAMS` + `ASK`;
on failure send `BADPWD`, sleep 0.5 s and break. -/
def pwdHandle (cfg : ServerCfg) (st : ServerSt) (data : Bytes) : PwdRes :=
  if hasSub (bs "__#PWD_") data then
    let received := extractPwd data
    let ok := match cfg.pwd with
      | some p => received == p
      | none => false
    if ok then
      if st.clientType == bs "BR" then
        { st := { st with authorized := true },
          sent := [comParamsFrame cfg, ASK_CMD], broke := false, delayMs := 0 }
      else
        { st := { st with authorized := true }, sent := [], broke := false, delayMs := 0 }
    else { st := st, sent := [BAD_PWD_MSG], broke := true, delayMs := 500 }
  else { st := st, sent := [], broke := false, delayMs := 0 }

/-- Lines 945–984: the branch taken when the chunk contains `__#` and `#__`.
The chunk is consumed entirely as control traffic: nothing is ever written to
the serial endpoint from this branch and the byte counters are untouched. -/
def srvControl (cfg : ServerCfg) (st0 : ServerSt) (data : Bytes) : SrvStep :=
  let v := verFold cfg st0 data
  let qs := queryReplies cfg data
  let stB := comParamsUpdate v.st data
  let pr := pwdHandle cfg stB data
  { st := pr.st, sent := v.sent ++ qs ++ pr.sent, serialOut := [],
    broke := pr.broke || hasSub DISCONNECT_CMD data, delayMs := pr.delayMs }

/-- Lines 985–997: the branch for a chunk containing no `__#`: unauthorized
data is buffered (if short) or rejected with a break; authorized data is
counted into `session_stats["in"]` and written verbatim to the serial port. -/
def srvPayload (cfg : ServerCfg) (st : ServerSt) (data : Bytes) : SrvStep :=
  if !st.authorized && cfg.pwd.isSome then
    if data.length < 20 then
      { st := { st with packetBuffer := data }, sent := [], serialOut := [],
        broke := false, delayMs := 0 }
    else
      { st := st, sent := [], serialOut := [], broke := true, delayMs := 0 }
  else
    { st := { st with inBytes := st.inBytes + data.length }, sent := [],
      serialOut := data, broke := false, delayMs := 0 }

/-- One iteration of the server receive loop (lines 931–997) on one recv
chunk: prepend and clear `packet_buffer`, then dispatch on the presence of
the frame delimiters; a chunk with an opening `__#` but no closing `#__` is
re-buffered whole. -/
def srvStep (cfg : ServerCfg) (st0 : ServerSt) (chunk : Bytes) : SrvStep :=
  let data := st0.packetBuffer ++ chunk
  let st1 := { st0 with packetBuffer := [] }
  if hasSub (bs "__#") data then
    if hasSub (bs "#__") data then srvControl cfg st1 data
    else
      { st := { st1 with packetBuffer := data }, sent := [], serialOut := [],
        broke := false, delayMs := 0 }
  else srvPayload cfg st1 data

/-- One poll of `serial_to_socket` (lines 503–514) with `avail` bytes pending
on the serial port: before authorization the thread only sleeps; afterwards
it reads everything available, accounts it into `session_stats["out"]` and
sends it to the socket.  Returns the new state and the data-plane bytes sent. -/
def serialPoll (st : ServerSt) (avail : Bytes) : ServerSt × Bytes :=
  if !st.authorized then (st, [])
  else if avail.isEmpty then (st, [])
  else ({ st with outBytes := st.outBytes + avail.length }, avail)

/-- An externally visible event of one server session: a network chunk
arriving at the receive loop, or a poll of the serial port by
`serial_to_socket`. -/
inductive Ev where
  | net (chunk : Bytes)
  | ser (avail : Bytes)

/-- Cumulative observation of a session run: final state, control frames
sent, data-plane bytes relayed serial→socket, bytes written to the serial
endpoint, and whether the receive loop has exited. -/
structure RunAcc where
  st : ServerSt
  sent : List Bytes
  dataSent : Bytes
  serialOut : Bytes
  broke : Bool

def runStep (cfg : ServerCfg) (acc : RunAcc) (e : Ev) : RunAcc :=
  if acc.broke then acc
  else
    match e with
    | .net chunk =>
      let r := srvStep cfg acc.st chunk
      { st := r.st, sent := acc.sent ++ r.sent, dataSent := acc.dataSent,
        serialOut := acc.serialOut ++ r.serialOut, broke := r.broke }
    | .ser avail =>
      let p := serialPoll acc.st avail
      { acc with st := p.1, dataSent := acc.dataSent ++ p.2 }

/-- A whole session: fold the events from the freshly initialised state. -/
def runEvents (cfg : ServerCfg) (evs : List Ev) : RunAcc :=
  evs.foldl (runStep cfg)
    { st := initSt cfg, sent := [], dataSent := [], serialOut := [], broke := false }

/-- A server configured with password `secret` (scenario S2's setup). -/
def cfgPwd : ServerCfg :=
  { pwd := some (bs "secret"), comport := bs "SRV-A", baud := bs "9600",
    line := bs "8N1N", keepalive := bs "120", version := bs "0.0.53" }

/-- The same server with no password (scenario S1's setup). -/
def cfgNoPwd : ServerCfg := { cfgPwd with pwd := none }

/-! ## Bridge (`serial_bridge_0.0.70_LinWin.py`) -/

/-- The bridge options its session logic reads. -/
structure BridgeCfg where
  pwd : Option Bytes
  keepalive : Nat
  comport : Bytes
  baud : Bytes
  line : Bytes
  version : Bytes
  isSec : Bool

/-- `f"__#BR_VER_{__CODE_VERSION__}#__"` (line 698). -/
def brVerFrame (cfg : BridgeCfg) : Bytes :=
  bs "__#BR_VER_" ++ cfg.version ++ bs "#__"

/-- `f"__#PWD_{pwd}#__"` (bridge line 702, client line 514). -/
def pwdFrame (p : Bytes) : Bytes := bs "__#PWD_" ++ p ++ bs "#__"

/-- `f"__#COM_PARAMS_{port_name} {baud} {line}#__"` as built by the bridge
(serial-port case; the named-pipe prefix variant differs only in the name). -/
def brComParamsFrame (cfg : BridgeCfg) : Bytes :=
  bs "__#COM_PARAMS_" ++ cfg.comport ++ bs " " ++ cfg.baud ++ bs " " ++ cfg.line ++ bs "#__"

/-- The frames sent by `SerialBridgeNode.run` during connection setup
(lines 698–708): `BR_VER_`, then — only when the socket was TLS-wrapped and
a password is configured (`if self.is_sec and self.args.pwd:`) — `PWD_`,
then `GETVER`, `GET_KA_TIMEOUT` and `ASK_COM_PARAMS`. -/
def bridgeConnectSends (cfg : BridgeCfg) : List Bytes :=
  [brVerFrame cfg]
    ++ (match cfg.pwd with
        | some p => if cfg.isSec then [pwdFrame p] else []
        | none => [])
    ++ [GETVER_CMD, GET_KA_TIMEOUT_CMD, ASK_CMD]

/-- The bridge-side session state touched by its receive handling. -/
structure BridgeSt where
  keepRunning : Bool
  serialReady : Bool
  srvVer : Bytes
  remoteParams : Bytes
  inBytes : Nat
  outBytes : Nat

/-- Fields as set in `SerialBridgeNode.__init__` (lines 198–213). -/
def initBrSt : BridgeSt :=
  { keepRunning := true, serialReady := false, srvVer := bs "???",
    remoteParams := bs "?? ?? ??", inBytes := 0, outBytes := 0 }

/-- The two keep-alive verdicts the bridge can log for a received
`MY_KA_TIMEOUT_<n>` (line 757–758). -/
inductive KaLog where
  | ok
  | risk
deriving DecidableEq

/-- `if srv_ka > self.args.keepalive: log OK else: log RISK` (lines 757–758).
In neither case is the session terminated. -/
def kaVerdict (srvKa localKa : Nat) : KaLog :=
  if localKa < srvKa then .ok else .risk

/-- Result of the bridge's `__#`-handling block. -/
structure BrCtl where
  st : BridgeSt
  sent : List Bytes
  kaLog : Option KaLog
  broke : Bool
  out : Bytes

/-- `[^#]`-body scan of the bridge's strip regex: consume non-`#` bytes until
a literal `#__` closes the frame; a `#` not followed by `__` kills the match
(the character class cannot backtrack across it). -/
def scanBody : Bytes → Option Bytes
  | [] => none
  | c :: rest =>
    if c == '#' then
      if leadsWith (bs "__") rest then some (rest.drop 2) else none
    else scanBody rest

/-- Does `re` match `__#[^#]*#__` at the head of `s`?  If so, return the
remainder after the match. -/
def matchCtl (s : Bytes) : Option Bytes :=
  if leadsWith (bs "__#") s then scanBody (s.drop 3) else none

def stripCtlGo : Nat → Bytes → Bytes
  | 0, s => s
  | Nat.succ fuel, s =>
    match s with
    | [] => []
    | c :: rest =>
      match matchCtl (c :: rest) with
      | some rem => stripCtlGo fuel rem
      | none => c :: stripCtlGo fuel rest

/-- `re.sub(b"__#[^#]*#__", b"", data)` (bridge line 782): remove every
leftmost-first occurrence of a control frame whose body contains no `#`. -/
def stripCtl (s : Bytes) : Bytes := stripCtlGo s.length s

/-- The bridge's handling of a chunk containing `__#` (lines 738–783):
check `BADPWD`, record `SRV_VER_` (answering with `COM_PARAMS`), log the
keep-alive verdict for `MY_KA_TIMEOUT_`, record `COM_PARAMS` (which arms
`serial_ready`), reply to `GETVER` — or else to `ASK_COM_PARAMS` —, then
strip the control frames from the chunk. -/
def bridgeCtl (cfg : BridgeCfg) (st : BridgeSt) (data : Bytes) : BrCtl :=
  if hasSub BAD_PWD_MSG data then
    { st := st, sent := [], kaLog := none, broke := true, out := [] }
  else
    let stA :=
      if hasSub (bs "SRV_VER_") data then
        { st with srvVer :=
            upToFirst (bs "#") (upToFirst (bs "SRV_VER_") (afterFirst (bs "SRV_VER_") data)) }
      else st
    let sent1 := if hasSub (bs "SRV_VER_") data then [brComParamsFrame cfg] else []
    let kaLog :=
      if hasSub MY_KA_TIMEOUT_CMD data then
        match parseNatB (upToFirst (bs "#")
            (upToFirst MY_KA_TIMEOUT_CMD (afterFirst MY_KA_TIMEOUT_CMD data))) with
        | some srvKa => some (kaVerdict srvKa cfg.keepalive)
        | none => none
      else none
    let stB :=
      if hasSub (bs "__#COM_PARAMS_") data then
        { stA with
            remoteParams :=
              pyStrip (upToFirst (bs "#__")
                (upToFirst (bs "__#COM_PARAMS_")
                  (afterFirst (bs "__#COM_PARAMS_") (pyStrip data)))),
            serialReady := true }
      else stA
    let sent2 :=
      if hasSub GETVER_CMD data then [brVerFrame cfg]
      else if hasSub ASK_CMD data then [brComParamsFrame cfg]
      else []
    { st := stB, sent := sent1 ++ sent2, kaLog := kaLog, broke := false,
      out := stripCtl data }

/-- Observable result of the bridge processing one network chunk. -/
structure BrStep where
  st : BridgeSt
  sent : List Bytes
  serialOut : Bytes
  kaLog : Option KaLog
  broke : Bool

/-- One pass of the bridge's network-receive handling (lines 725–802):
empty recv and `DISCONNECT` end the session; after control processing the
post-filter remainder is written to the local serial endpoint (when
`serial_ready`) and accounted into `out_count`. -/
def bridgeRecvStep (cfg : BridgeCfg) (st : BridgeSt) (data : Bytes) : BrStep :=
  if data.isEmpty then
    { st := { st with keepRunning := false }, sent := [], serialOut := [],
      kaLog := none, broke := true }
  else if hasSub DISCONNECT_CMD data then
    { st := { st with keepRunning := false }, sent := [], serialOut := [],
      kaLog := none, broke := true }
  else
    let c :=
      if hasSub (bs "__#") data then bridgeCtl cfg st data
      else { st := st, sent := [], kaLog := none, broke := false, out := data }
    if c.broke then
      { st := c.st, sent := c.sent, serialOut := [], kaLog := c.kaLog, broke := true }
    else if c.st.serialReady && !c.out.isEmpty then
      { st := { c.st with outBytes := c.st.outBytes + c.out.length },
        sent := c.sent, serialOut := c.out, kaLog := c.kaLog, broke := false }
    else
      { st := c.st, sent := c.sent, serialOut := [], kaLog := c.kaLog, broke := false }

/-- One poll of the bridge's serial→network direction (lines 912–918): any
available serial bytes are sent to the socket raw and accounted into
`in_count`. -/
def bridgeSerialPoll (st : BridgeSt) (avail : Bytes) : BridgeSt × Bytes :=
  if avail.isEmpty then (st, [])
  else ({ st with inBytes := st.inBytes + avail.length }, avail)

/-- A bridge over a plain TCP socket / over TLS, password configurable. -/
def brCfg (isSec : Bool) (pwd : Option Bytes) : BridgeCfg :=
  { pwd := pwd, keepalive := 30, comport := bs "BR-A", baud := bs "9600",
    line := bs "8N1N", version := bs "0.0.70", isSec := isSec }

/-! ## Client (`serial_client_0.0.56_LinWin.py`) -/

structure ClientCfg where
  pwd : Option Bytes
  keepalive : Nat
  version : Bytes

/-- `f"__#CL_VER_{__CODE_VERSION__}#__"` (lines 282, 512). -/
def clVerFrame (cfg : ClientCfg) : Bytes :=
  bs "__#CL_VER_" ++ cfg.version ++ bs "#__"

/-- `f"__#MY_KA_TIMEOUT_{self.args.keepalive}#__"` (line 286). -/
def clMyKaFrame (cfg : ClientCfg) : Bytes :=
  MY_KA_TIMEOUT_CMD ++ Nat.toDigits 10 cfg.keepalive ++ bs "#__"

/-- The frames `SoEClient.run` sends right after connecting (lines 511–517):
`CL_VER_`, then `PWD_` whenever a password is configured — with or without
TLS —, then `GETVER` and `ASK_COM_PARAMS`. -/
def clientConnectSends (cfg : ClientCfg) : List Bytes :=
  [clVerFrame cfg]
    ++ (match cfg.pwd with
        | some p => [pwdFrame p]
        | none => [])
    ++ [GETVER_CMD, ASK_CMD]

/-- Client-side state touched by `_receive_thread`. -/
structure ClientSt where
  recvCount : Nat
  serverVersion : Bytes
  remoteParams : Bytes
  shutdown : Bool

def initClSt : ClientSt :=
  { recvCount := 0, serverVersion := bs "?.?.?", remoteParams := bs "?? ?? ??",
    shutdown := false }

/-- Body scan of the client's strip regex `__#.*?#__` (non-greedy `.`,
which matches anything except a newline): the frame closes at the first
following `#__`, and a newline before it kills the match. -/
def scanClose : Bytes → Option Bytes
  | [] => none
  | c :: rest =>
    if leadsWith (bs "#__") (c :: rest) then some ((c :: rest).drop 3)
    else if c == '\n' then none
    else scanClose rest

def matchCtlLazy (s : Bytes) : Option Bytes :=
  if leadsWith (bs "__#") s then scanClose (s.drop 3) else none

def stripLazyGo : Nat → Bytes → Bytes
  | 0, s => s
  | Nat.succ fuel, s =>
    match s with
    | [] => []
    | c :: rest =>
      match matchCtlLazy (c :: rest) with
      | some rem => stripLazyGo fuel rem
      | none => c :: stripLazyGo fuel rest

/-- `re.sub(r'__#.*?#__', '', decoded_part)` (client line 305). -/
def stripCtlLazy (s : Bytes) : Bytes := stripLazyGo s.length s

/-- Observable result of the client processing one received chunk. -/
structure ClStep where
  st : ClientSt
  sent : List Bytes
  stdoutOut : Bytes
  broke : Bool

/-- One pass of the client's `_receive_thread` (lines 267–323).  The counter
update is the line commented `FIX: Count raw traffic before protocol
filtering` — `recv_count` grows by the raw chunk length *before* any control
frame is removed. -/
def clientRecvStep (cfg : ClientCfg) (st : ClientSt) (data : Bytes) : ClStep :=
  if data.isEmpty then
    { st := st, sent := [], stdoutOut := [], broke := true }
  else
    let st1 := { st with recvCount := st.recvCount + data.length }
    if hasSub (bs "__#") data then
      let sent := (if hasSub GETVER_CMD data then [clVerFrame cfg] else [])
        ++ (if hasSub GET_KA_TIMEOUT_CMD data then [clMyKaFrame cfg] else [])
      let st2 :=
        if hasSub (bs "SRV_VER_") data then
          { st1 with serverVersion :=
              upToFirst (bs "#") (upToFirst (bs "SRV_VER_") (afterFirst (bs "SRV_VER_") data)) }
        else st1
      if hasSub BAD_PWD_MSG data || hasSub DISCONNECT_CMD data then
        { st := { st2 with shutdown := true }, sent := sent, stdoutOut := [], broke := true }
      else
        let st3 :=
          if hasSub (bs "__#COM_PARAMS_") data then
            { st2 with remoteParams :=
                pyStrip (upToFirst (bs "#__")
                  (upToFirst (bs "__#COM_PARAMS_") (afterFirst (bs "__#COM_PARAMS_") data))) }
          else st2
        let remaining := stripCtlLazy data
        if pyStrip remaining == ([] : Bytes) then
          { st := st3, sent := sent, stdoutOut := [], broke := false }
        else
          { st := st3, sent := sent, stdoutOut := remaining, broke := false }
    else
      { st := st1, sent := [], stdoutOut := data, broke := false }

def clCfg : ClientCfg := { pwd := some (bs "secret"), keepalive := 30, version := bs "0.0.56" }

/-- A server whose configured password contains a `#`. -/
def cfgHash : ServerCfg := { cfgPwd with pwd := some (bs "a#b") }

end SoE

namespace SoE

/-! ## Helper lemmas -/

theorem leadsWith_append (a b s : Bytes) (h : leadsWith (a ++ b) s = true) :
    leadsWith a s = true := by
  induction a generalizing s with
  | nil => rfl
  | cons x xs ih =>
    cases s with
    | nil => simp [leadsWith] at h
    | cons y ys =>
      simp only [List.cons_append, leadsWith, Bool.and_eq_true] at h ⊢
      exact ⟨h.1, ih ys h.2⟩

theorem hasSub_of_append (a b s : Bytes) (h : hasSub (a ++ b) s = true) :
    hasSub a s = true := by
  induction s with
  | nil =>
    simp only [hasSub] at h ⊢
    exact leadsWith_append a b [] h
  | cons c rest ih =>
    simp only [hasSub, Bool.or_eq_true] at h ⊢
    rcases h with h | h
    · exact Or.inl (leadsWith_append a b _ h)
    · exact Or.inr (ih h)

theorem upToFirst_single_clean (a : Char) (s : Bytes) :
    hasSub [a] (upToFirst [a] s) = false := by
  induction s with
  | nil => rfl
  | cons c rest ih =>
    by_cases hc : (a == c) = true
    · have hac : a = c := by simpa using hc
      subst hac
      simp [upToFirst, leadsWith, hasSub]
    · have hA : (a == c) = false := by simpa using hc
      have hl : leadsWith [a] (c :: rest) = false := by simp [leadsWith, hA]
      have hl2 : leadsWith [a] (c :: upToFirst [a] rest) = false := by simp [leadsWith, hA]
      simp [upToFirst, hl, hasSub, hl2, ih]

theorem upToFirst_hash_clean (s : Bytes) :
    hasSub (bs "#") (upToFirst (bs "#") s) = false := by
  have hb : bs "#" = ['#'] := rfl
  rw [hb]
  exact upToFirst_single_clean '#' s

theorem extractPwd_hash_clean (data : Bytes) :
    hasSub (bs "#") (extractPwd data) = false :=
  upToFirst_hash_clean _

/-- The `_VER_` part loop never touches the byte counters or the buffer, and
with a configured password it can not change `authorized` either. -/
theorem verScanPart_fields (cfg : ServerCfg) (acc : VerAcc) (part : Bytes) :
    (verScanPart cfg acc part).st.inBytes = acc.st.inBytes ∧
    (verScanPart cfg acc part).st.outBytes = acc.st.outBytes ∧
    (verScanPart cfg acc part).st.packetBuffer = acc.st.packetBuffer := by
  simp only [verScanPart]
  repeat' split
  all_goals exact ⟨rfl, rfl, rfl⟩

theorem verScanPart_auth_mono (cfg : ServerCfg) (acc : VerAcc) (part : Bytes)
    (h : acc.st.authorized = true) :
    (verScanPart cfg acc part).st.authorized = true := by
  simp only [verScanPart]
  repeat' split
  all_goals first | rfl | exact h

theorem verScanPart_auth_pwd (cfg : ServerCfg) (p : Bytes) (acc : VerAcc) (part : Bytes)
    (hp : cfg.pwd = some p) :
    (verScanPart cfg acc part).st.authorized = acc.st.authorized := by
  simp only [verScanPart, hp, Option.isNone_some, Bool.false_eq_true, if_false]
  split <;> rfl

theorem foldVer_fields (cfg : ServerCfg) (parts : List Bytes) (acc : VerAcc) :
    (parts.foldl (verScanPart cfg) acc).st.inBytes = acc.st.inBytes ∧
    (parts.foldl (verScanPart cfg) acc).st.outBytes = acc.st.outBytes ∧
    (parts.foldl (verScanPart cfg) acc).st.packetBuffer = acc.st.packetBuffer := by
  induction parts generalizing acc with
  | nil => exact ⟨rfl, rfl, rfl⟩
  | cons q qs ih =>
    rw [List.foldl_cons]
    obtain ⟨i1, i2, i3⟩ := ih (verScanPart cfg acc q)
    obtain ⟨j1, j2, j3⟩ := verScanPart_fields cfg acc q
    exact ⟨i1.trans j1, i2.trans j2, i3.trans j3⟩

theorem foldVer_auth_mono (cfg : ServerCfg) (parts : List Bytes) (acc : VerAcc)
    (h : acc.st.authorized = true) :
    (parts.foldl (verScanPart cfg) acc).st.authorized = true := by
  induction parts generalizing acc with
  | nil => exact h
  | cons q qs ih =>
    rw [List.foldl_cons]
    exact ih _ (verScanPart_auth_mono cfg acc q h)

theorem foldVer_auth_pwd (cfg : ServerCfg) (p : Bytes) (parts : List Bytes) (acc : VerAcc)
    (hp : cfg.pwd = some p) :
    (parts.foldl (verScanPart cfg) acc).st.authorized = acc.st.authorized := by
  induction parts generalizing acc with
  | nil => rfl
  | cons q qs ih =>
    rw [List.foldl_cons]
    exact (ih _).trans (verScanPart_auth_pwd cfg p acc q hp)

theorem verFold_fields (cfg : ServerCfg) (st : ServerSt) (data : Bytes) :
    (verFold cfg st data).st.inBytes = st.inBytes ∧
    (verFold cfg st data).st.outBytes = st.outBytes ∧
    (verFold cfg st data).st.packetBuffer = st.packetBuffer := by
  unfold verFold
  split
  · exact foldVer_fields cfg _ ⟨st, []⟩
  · exact ⟨rfl, rfl, rfl⟩

theorem verFold_auth_mono (cfg : ServerCfg) (st : ServerSt) (data : Bytes)
    (h : st.authorized = true) :
    (verFold cfg st data).st.authorized = true := by
  unfold verFold
  split
  · exact foldVer_auth_mono cfg _ ⟨st, []⟩ h
  · exact h

theorem verFold_auth_pwd (cfg : ServerCfg) (p : Bytes) (st : ServerSt) (data : Bytes)
    (hp : cfg.pwd = some p) :
    (verFold cfg st data).st.authorized = st.authorized := by
  unfold verFold
  split
  · exact foldVer_auth_pwd cfg p _ ⟨st, []⟩ hp
  · rfl

theorem comParamsUpdate_fields (st : ServerSt) (data : Bytes) :
    (comParamsUpdate st data).inBytes = st.inBytes ∧
    (comParamsUpdate st data).outBytes = st.outBytes ∧
    (comParamsUpdate st data).packetBuffer = st.packetBuffer ∧
    (comParamsUpdate st data).authorized = st.authorized ∧
    (comParamsUpdate st data).clientType = st.clientType := by
  simp only [comParamsUpdate]
  split <;> exact ⟨rfl, rfl, rfl, rfl, rfl⟩

theorem pwdHandle_fields (cfg : ServerCfg) (st : ServerSt) (data : Bytes) :
    (pwdHandle cfg st data).st.inBytes = st.inBytes ∧
    (pwdHandle cfg st data).st.outBytes = st.outBytes ∧
    (pwdHandle cfg st data).st.packetBuffer = st.packetBuffer := by
  simp only [pwdHandle]
  repeat' split
  all_goals exact ⟨rfl, rfl, rfl⟩

theorem pwdHandle_auth_mono (cfg : ServerCfg) (st : ServerSt) (data : Bytes)
    (h : st.authorized = true) :
    (pwdHandle cfg st data).st.authorized = true := by
  simp only [pwdHandle]
  repeat' split
  all_goals first | rfl | exact h

theorem srvControl_serialOut (cfg : ServerCfg) (st : ServerSt) (data : Bytes) :
    (srvControl cfg st data).serialOut = [] := rfl

theorem srvControl_counters (cfg : ServerCfg) (st : ServerSt) (data : Bytes) :
    (srvControl cfg st data).st.inBytes = st.inBytes ∧
    (srvControl cfg st data).st.outBytes = st.outBytes := by
  unfold srvControl
  dsimp only
  obtain ⟨p1, p2, _⟩ := pwdHandle_fields cfg (comParamsUpdate (verFold cfg st data).st data) data
  obtain ⟨c1, c2, _, _, _⟩ := comParamsUpdate_fields (verFold cfg st data).st data
  obtain ⟨v1, v2, _⟩ := verFold_fields cfg st data
  exact ⟨(p1.trans c1).trans v1, (p2.trans c2).trans v2⟩

theorem srvControl_auth_mono (cfg : ServerCfg) (st : ServerSt) (data : Bytes)
    (h : st.authorized = true) :
    (srvControl cfg st data).st.authorized = true := by
  unfold srvControl
  dsimp only
  apply pwdHandle_auth_mono
  rw [(comParamsUpdate_fields (verFold cfg st data).st data).2.2.2.1]
  exact verFold_auth_mono cfg st data h

theorem srvStep_auth_mono (cfg : ServerCfg) (st : ServerSt) (chunk : Bytes)
    (h : st.authorized = true) :
    (srvStep cfg st chunk).st.authorized = true := by
  unfold srvStep
  dsimp only
  split
  · split
    · exact srvControl_auth_mono cfg _ _ h
    · exact h
  · unfold srvPayload
    dsimp only [ServerSt.authorized]
    split
    · rename_i hcond
      rw [h] at hcond
      simp at hcond
    · exact h

theorem srvStep_preauth_frozen (cfg : ServerCfg) (p : Bytes) (st : ServerSt) (chunk : Bytes)
    (hp : cfg.pwd = some p) (ha : st.authorized = false) :
    (srvStep cfg st chunk).serialOut = [] ∧
    (srvStep cfg st chunk).st.inBytes = st.inBytes ∧
    (srvStep cfg st chunk).st.outBytes = st.outBytes := by
  unfold srvStep
  dsimp only
  split
  · split
    · exact ⟨srvControl_serialOut cfg _ _,
        (srvControl_counters cfg _ _).1, (srvControl_counters cfg _ _).2⟩
    · exact ⟨rfl, rfl, rfl⟩
  · unfold srvPayload
    dsimp only [ServerSt.authorized]
    split
    · split <;> exact ⟨rfl, rfl, rfl⟩
    · rename_i hcond
      rw [ha, hp] at hcond
      simp at hcond

theorem serialPoll_preauth (st : ServerSt) (avail : Bytes) (ha : st.authorized = false) :
    serialPoll st avail = (st, []) := by
  unfold serialPoll
  simp [ha]

theorem serialPoll_auth (st : ServerSt) (avail : Bytes) :
    (serialPoll st avail).1.authorized = st.authorized := by
  unfold serialPoll
  split
  · rfl
  · split <;> rfl

/-- The fold of `runStep` preserves the pre-authorization-silence invariant. -/
theorem runFold_preauth (cfg : ServerCfg) (p : Bytes) (hp : cfg.pwd = some p)
    (evs : List Ev) (acc : RunAcc)
    (hacc : acc.st.authorized = false →
      acc.serialOut = [] ∧ acc.dataSent = [] ∧ acc.st.inBytes = 0 ∧ acc.st.outBytes = 0) :
    (evs.foldl (runStep cfg) acc).st.authorized = false →
      (evs.foldl (runStep cfg) acc).serialOut = [] ∧
      (evs.foldl (runStep cfg) acc).dataSent = [] ∧
      (evs.foldl (runStep cfg) acc).st.inBytes = 0 ∧
      (evs.foldl (runStep cfg) acc).st.outBytes = 0 := by
  induction evs generalizing acc with
  | nil => exact hacc
  | cons e es ih =>
    rw [List.foldl_cons]
    apply ih
    unfold runStep
    split
    · exact hacc
    · cases e with
      | net chunk =>
        intro hauth
        simp only at hauth ⊢
        have haccauth : acc.st.authorized = false := by
          by_contra hh
          rw [srvStep_auth_mono cfg acc.st chunk (by simpa using hh)] at hauth
          exact absurd hauth (by simp)
        obtain ⟨e1, e2, e3, e4⟩ := hacc haccauth
        obtain ⟨f1, f2, f3⟩ := srvStep_preauth_frozen cfg p acc.st chunk hp haccauth
        exact ⟨by rw [e1, f1]; rfl, e2, by rw [f2, e3], by rw [f3, e4]⟩
      | ser avail =>
        intro hauth
        simp only at hauth ⊢
        have haccauth : acc.st.authorized = false := by
          rw [← serialPoll_auth acc.st avail]
          exact hauth
        obtain ⟨e1, e2, e3, e4⟩ := hacc haccauth
        rw [serialPoll_preauth acc.st avail haccauth]
        exact ⟨e1, by rw [e2]; rfl, e3, e4⟩

/-! ## Claims -/

/-- C1: Pre-authorization silence — in any server session with a configured
password, as long as the peer has not been authorized (no matching `PWD_`
frame processed), no data-plane bytes have been written to the serial
endpoint, none have been relayed from the serial endpoint to the socket, and
the session's `in`/`out` byte counters are both still zero. -/
theorem preauth_silence (cfg : ServerCfg) (p : Bytes) (hp : cfg.pwd = some p)
    (evs : List Ev) (hauth : (runEvents cfg evs).st.authorized = false) :
    (runEvents cfg evs).serialOut = [] ∧ (runEvents cfg evs).dataSent = [] ∧
    (runEvents cfg evs).st.inBytes = 0 ∧ (runEvents cfg evs).st.outBytes = 0 :=
  runFold_preauth cfg p hp evs _ (fun _ => ⟨rfl, rfl, rfl, rfl⟩) hauth

/-- Witness for `preauth_silence`: a concrete still-unauthorized run with a
serial poll and a short raw network chunk. -/
theorem preauth_silence_witness :
    cfgPwd.pwd = some (bs "secret") ∧
    (runEvents cfgPwd [Ev.ser (bs "xyz"), Ev.net (bs "hi")]).st.authorized = false ∧
    ((runEvents cfgPwd [Ev.ser (bs "xyz"), Ev.net (bs "hi")]).serialOut = [] ∧
     (runEvents cfgPwd [Ev.ser (bs "xyz"), Ev.net (bs "hi")]).dataSent = [] ∧
     (runEvents cfgPwd [Ev.ser (bs "xyz"), Ev.net (bs "hi")]).st.inBytes = 0 ∧
     (runEvents cfgPwd [Ev.ser (bs "xyz"), Ev.net (bs "hi")]).st.outBytes = 0) :=
  ⟨rfl, by decide, preauth_silence cfgPwd (bs "secret") rfl _ (by decide)⟩

/-- C2 counterexample: in an authorized session (no password configured, so
`b_state['authorized']` starts true) the chunk `A__#KEEPALIVE#__B` contains a
complete control frame, so the server's receive loop consumes the whole chunk
in its control branch and writes nothing to the serial endpoint — the payload
run `AB` around the frame is silently dropped, not forwarded. -/
theorem payload_transparency_cex :
    (initSt cfgNoPwd).authorized = true ∧
    (srvStep cfgNoPwd (initSt cfgNoPwd) (bs "A__#KEEPALIVE#__B")).serialOut = [] ∧
    (srvStep cfgNoPwd (initSt cfgNoPwd) (bs "A__#KEEPALIVE#__B")).serialOut ≠ bs "AB" := by
  decide

/-- C2 (amended): in an authorized server session a received chunk is written
to the local serial endpoint unchanged and in order exactly when it contains
no `__#`; a chunk containing a complete `__#…#__` control frame is consumed
entirely by the control branch and none of its bytes — payload runs included —
reach the serial endpoint. -/
theorem payload_transparency_amended (cfg : ServerCfg) (st : ServerSt) (chunk : Bytes)
    (hauth : st.authorized = true) (hbuf : st.packetBuffer = []) :
    (hasSub (bs "__#") chunk = false →
      (srvStep cfg st chunk).serialOut = chunk ∧
      (srvStep cfg st chunk).st.inBytes = st.inBytes + chunk.length)
  ∧ (hasSub (bs "__#") chunk = true → hasSub (bs "#__") chunk = true →
      (srvStep cfg st chunk).serialOut = []) := by
  constructor
  · intro h
    unfold srvStep
    dsimp only
    rw [hbuf]
    simp only [List.nil_append, h, Bool.false_eq_true, if_false]
    unfold srvPayload
    dsimp only [ServerSt.authorized]
    rw [hauth]
    simp
  · intro h1 h2
    unfold srvStep
    dsimp only
    rw [hbuf]
    simp only [List.nil_append, h1, h2, if_true]
    exact srvControl_serialOut cfg _ _

/-- Witness for `payload_transparency_amended` on the frame-free chunk
`hello` in an authorized session. -/
theorem payload_transparency_amended_witness :
    (initSt cfgNoPwd).authorized = true ∧ hasSub (bs "__#") (bs "hello") = false ∧
    ((srvStep cfgNoPwd (initSt cfgNoPwd) (bs "hello")).serialOut = bs "hello" ∧
     (srvStep cfgNoPwd (initSt cfgNoPwd) (bs "hello")).st.inBytes =
       (initSt cfgNoPwd).inBytes + (bs "hello").length) :=
  ⟨by decide, by decide,
    (payload_transparency_amended cfgNoPwd (initSt cfgNoPwd) (bs "hello")
      (by decide) rfl).1 (by decide)⟩

/-- C3 counterexample: feeding the server's stream parser `A__#GET` and then
`VER#__B__#KEEPALIVE#__C` does not produce the claimed event sequence — the
first chunk is buffered whole, the recombined chunk is consumed entirely as
control (only the `GETVER` reply is emitted), and none of the payload runs
`A`, `B`, `C` is ever delivered to the serial endpoint. -/
theorem parser_s4_cex :
    (runEvents cfgNoPwd
        [Ev.net (bs "A__#GET"), Ev.net (bs "VER#__B__#KEEPALIVE#__C")]).serialOut = [] ∧
    (runEvents cfgNoPwd
        [Ev.net (bs "A__#GET"), Ev.net (bs "VER#__B__#KEEPALIVE#__C")]).serialOut ≠ bs "ABC" := by
  decide

/-- C3 (amended): on the chunks `A__#GET` then `VER#__B__#KEEPALIVE#__C` the
server buffers the first chunk whole (emitting nothing), then treats the
concatenation as one control chunk: it answers the embedded `GETVER` with its
`SRV_VER_` frame, delivers no payload bytes at all, and clears the buffer. -/
theorem parser_s4_amended :
    (runEvents cfgNoPwd [Ev.net (bs "A__#GET")]).st.packetBuffer = bs "A__#GET" ∧
    (runEvents cfgNoPwd [Ev.net (bs "A__#GET")]).sent = [] ∧
    (runEvents cfgNoPwd [Ev.net (bs "A__#GET")]).serialOut = [] ∧
    (runEvents cfgNoPwd
        [Ev.net (bs "A__#GET"), Ev.net (bs "VER#__B__#KEEPALIVE#__C")]).sent
      = [srvVerFrame cfgNoPwd] ∧
    (runEvents cfgNoPwd
        [Ev.net (bs "A__#GET"), Ev.net (bs "VER#__B__#KEEPALIVE#__C")]).serialOut = [] ∧
    (runEvents cfgNoPwd
        [Ev.net (bs "A__#GET"), Ev.net (bs "VER#__B__#KEEPALIVE#__C")]).st.packetBuffer = [] ∧
    (runEvents cfgNoPwd
        [Ev.net (bs "A__#GET"), Ev.net (bs "VER#__B__#KEEPALIVE#__C")]).broke = false := by
  decide

set_option maxRecDepth 100000 in
/-- C4 counterexample: an unterminated `__#…` stream is buffered without any
512-byte cap — after two chunks the parser holds 606 bytes and has emitted
nothing as payload, while the claim demands at most 512 buffered bytes and
payload emission beyond the cap. -/
theorem frame_cap_cex :
    (runEvents cfgNoPwd
        [Ev.net (bs "__#" ++ List.replicate 300 'A'),
         Ev.net (List.replicate 303 'A')]).st.packetBuffer.length = 606 ∧
    512 < 606 ∧
    (runEvents cfgNoPwd
        [Ev.net (bs "__#" ++ List.replicate 300 'A'),
         Ev.net (List.replicate 303 'A')]).serialOut = [] ∧
    (runEvents cfgNoPwd
        [Ev.net (bs "__#" ++ List.replicate 300 'A'),
         Ev.net (List.replicate 303 'A')]).sent = [] := by
  decide

/-- C4 (amended): whenever the accumulated data contains `__#` but no closing
`#__`, the server re-buffers it whole — regardless of its size, with no cap —
emitting nothing as payload and sending nothing; buffered bytes are held until
a closing delimiter arrives or the connection ends. -/
theorem frame_cap_amended (cfg : ServerCfg) (st : ServerSt) (chunk : Bytes)
    (h1 : hasSub (bs "__#") (st.packetBuffer ++ chunk) = true)
    (h2 : hasSub (bs "#__") (st.packetBuffer ++ chunk) = false) :
    (srvStep cfg st chunk).st.packetBuffer = st.packetBuffer ++ chunk ∧
    (srvStep cfg st chunk).serialOut = [] ∧
    (srvStep cfg st chunk).sent = [] ∧
    (srvStep cfg st chunk).broke = false := by
  unfold srvStep
  dsimp only
  simp [h1, h2]

/-- Witness for `frame_cap_amended` on a short unterminated fragment. -/
theorem frame_cap_amended_witness :
    hasSub (bs "__#") ((initSt cfgPwd).packetBuffer ++ bs "__#PART") = true ∧
    hasSub (bs "#__") ((initSt cfgPwd).packetBuffer ++ bs "__#PART") = false ∧
    ((srvStep cfgPwd (initSt cfgPwd) (bs "__#PART")).st.packetBuffer =
        (initSt cfgPwd).packetBuffer ++ bs "__#PART" ∧
     (srvStep cfgPwd (initSt cfgPwd) (bs "__#PART")).serialOut = [] ∧
     (srvStep cfgPwd (initSt cfgPwd) (bs "__#PART")).sent = [] ∧
     (srvStep cfgPwd (initSt cfgPwd) (bs "__#PART")).broke = false) :=
  ⟨by decide, by decide,
    frame_cap_amended cfgPwd (initSt cfgPwd) (bs "__#PART") (by decide) (by decide)⟩

/-- C5 counterexample: with the correct password but a peer that never
identified itself as a bridge (`client_type` still `??`), the server
authorizes the session yet sends neither `COM_PARAMS_` nor
`ASK_COM_PARAMS` — contradicting the claim that a matching password always
triggers both frames. -/
theorem pwd_response_cex :
    (srvStep cfgPwd (initSt cfgPwd) (bs "__#PWD_secret#__")).st.authorized = true ∧
    (srvStep cfgPwd (initSt cfgPwd) (bs "__#PWD_secret#__")).sent = [] ∧
    comParamsFrame cfgPwd ∉ (srvStep cfgPwd (initSt cfgPwd) (bs "__#PWD_secret#__")).sent := by
  decide

/-- C5 (amended): on `PWD_<x>` with `x` matching, the session becomes
authorized, and the server sends `COM_PARAMS_` + `ASK_COM_PARAMS` only when
the peer had identified itself as a bridge (`client_type == "BR"`); on a
mismatch it sends `BADPWD`, sleeps 500 ms (≥ 200 ms) and closes, forwarding
no payload. -/
theorem pwd_response_amended :
    ((srvStep cfgPwd { initSt cfgPwd with clientType := bs "BR" }
        (bs "__#PWD_secret#__")).st.authorized = true ∧
     (srvStep cfgPwd { initSt cfgPwd with clientType := bs "BR" }
        (bs "__#PWD_secret#__")).sent = [comParamsFrame cfgPwd, ASK_CMD] ∧
     (srvStep cfgPwd { initSt cfgPwd with clientType := bs "BR" }
        (bs "__#PWD_secret#__")).broke = false)
  ∧ ((srvStep cfgPwd (initSt cfgPwd) (bs "__#PWD_secret#__")).st.authorized = true ∧
     (srvStep cfgPwd (initSt cfgPwd) (bs "__#PWD_secret#__")).sent = [])
  ∧ ((srvStep cfgPwd (initSt cfgPwd) (bs "__#PWD_wrong#__")).sent = [BAD_PWD_MSG] ∧
     (srvStep cfgPwd (initSt cfgPwd) (bs "__#PWD_wrong#__")).broke = true ∧
     (srvStep cfgPwd (initSt cfgPwd) (bs "__#PWD_wrong#__")).delayMs = 500 ∧
     200 ≤ (srvStep cfgPwd (initSt cfgPwd) (bs "__#PWD_wrong#__")).delayMs ∧
     (srvStep cfgPwd (initSt cfgPwd) (bs "__#PWD_wrong#__")).serialOut = [] ∧
     (srvStep cfgPwd (initSt cfgPwd) (bs "__#PWD_wrong#__")).st.authorized = false) := by
  decide

/-- C6 counterexample: a bridge with a configured password but no TLS
(`is_sec` false) never sends the `PWD_` frame during connection setup —
`if self.is_sec and self.args.pwd:` gates the send on TLS. -/
theorem pwd_on_connect_cex :
    (brCfg false (some (bs "p"))).pwd = some (bs "p") ∧
    (brCfg false (some (bs "p"))).isSec = false ∧
    pwdFrame (bs "p") ∉ bridgeConnectSends (brCfg false (some (bs "p"))) := by
  decide

/-- C6 (amended): the client sends `PWD_<secret>` whenever a password is
configured, regardless of TLS; the bridge sends it only when the socket is
TLS-wrapped — over plain TCP the bridge's password frame is omitted. -/
theorem pwd_on_connect_amended :
    (∀ p : Bytes, pwdFrame p ∈ bridgeConnectSends (brCfg true (some p)))
  ∧ (pwdFrame (bs "p") ∉ bridgeConnectSends (brCfg false (some (bs "p"))))
  ∧ (∀ (cc : ClientCfg) (p : Bytes), cc.pwd = some p →
      pwdFrame p ∈ clientConnectSends cc) := by
  refine ⟨?_, by decide, ?_⟩
  · intro p
    simp [bridgeConnectSends, brCfg]
  · intro cc p h
    simp [clientConnectSends, h]

/-- Witness for `pwd_on_connect_amended` applied to the sample client
configuration. -/
theorem pwd_on_connect_amended_witness :
    clCfg.pwd = some (bs "secret") ∧
    pwdFrame (bs "secret") ∈ clientConnectSends clCfg :=
  ⟨rfl, pwd_on_connect_amended.2.2 clCfg (bs "secret") rfl⟩

/-- C7 counterexample: the bridge (local keep-alive 30 s) receiving
`MY_KA_TIMEOUT_120` — a remote interval larger than its own — logs the OK
verdict, not the risk warning the claim requires; the session keeps running
either way. -/
theorem ka_policy_cex :
    (bridgeRecvStep (brCfg false none) initBrSt (bs "__#MY_KA_TIMEOUT_120#__")).kaLog
      = some KaLog.ok ∧
    KaLog.ok ≠ KaLog.risk ∧
    (brCfg false none).keepalive < 120 ∧
    (bridgeRecvStep (brCfg false none) initBrSt (bs "__#MY_KA_TIMEOUT_120#__")).broke = false ∧
    (bridgeRecvStep (brCfg false none) initBrSt
        (bs "__#MY_KA_TIMEOUT_120#__")).st.keepRunning = true := by
  decide

/-- C7 (amended): the bridge logs the risk verdict for a received
`MY_KA_TIMEOUT_<n>` exactly when the remote interval is at most its local
one (`srv_ka > keepalive` logs OK, otherwise RISK), and a keep-alive interval
report never terminates the session. -/
theorem ka_policy_amended :
    (∀ n localKa : Nat, kaVerdict n localKa = KaLog.risk ↔ n ≤ localKa)
  ∧ ((bridgeRecvStep (brCfg false none) initBrSt (bs "__#MY_KA_TIMEOUT_120#__")).kaLog
       = some (kaVerdict 120 30) ∧
     (bridgeRecvStep (brCfg false none) initBrSt (bs "__#MY_KA_TIMEOUT_120#__")).broke = false ∧
     (bridgeRecvStep (brCfg false none) initBrSt
        (bs "__#MY_KA_TIMEOUT_120#__")).st.keepRunning = true ∧
     (bridgeRecvStep (brCfg false none) initBrSt (bs "__#MY_KA_TIMEOUT_5#__")).kaLog
       = some KaLog.risk ∧
     (bridgeRecvStep (brCfg false none) initBrSt (bs "__#MY_KA_TIMEOUT_5#__")).broke = false) := by
  constructor
  · intro n localKa
    simp only [kaVerdict]
    split <;> rename_i h
    · simp only [reduceCtorEq, false_iff]
      omega
    · simp only [true_iff]
      omega
  · decide

/-- C8 counterexample: the client increments `recv_count` by the raw length
of every received chunk before protocol filtering, so the 15 bytes of a pure
`__#KEEPALIVE#__` control frame are counted even though nothing reaches the
data plane — control bytes are counted by the client role. -/
theorem counters_cex :
    (clientRecvStep clCfg initClSt KEEPALIVE_CMD).st.recvCount = 15 ∧
    (clientRecvStep clCfg initClSt KEEPALIVE_CMD).stdoutOut = [] ∧
    KEEPALIVE_CMD.length = 15 ∧
    hasSub (bs "__#") KEEPALIVE_CMD = true := by
  decide

/-- C8 (amended): the server and bridge counters reflect only post-filter
payload octets — the server's control branch never touches `in`, payload
chunks are counted exactly at their delivered length, and the bridge accounts
only the post-strip remainder it writes to serial — but the client's
`recv_count` grows by the raw pre-filter chunk length, control bytes
included. -/
theorem counters_amended :
    (∀ (cfg : ServerCfg) (st : ServerSt) (chunk : Bytes),
      hasSub (bs "__#") (st.packetBuffer ++ chunk) = true →
      hasSub (bs "#__") (st.packetBuffer ++ chunk) = true →
      (srvStep cfg st chunk).st.inBytes = st.inBytes ∧
      (srvStep cfg st chunk).serialOut = [])
  ∧ (∀ (cfg : ServerCfg) (st : ServerSt) (chunk : Bytes),
      st.authorized = true → st.packetBuffer = [] → hasSub (bs "__#") chunk = false →
      (srvStep cfg st chunk).st.inBytes = st.inBytes + chunk.length)
  ∧ ((bridgeRecvStep (brCfg true (some (bs "secret")))
        { initBrSt with serialReady := true } (bs "X__#KEEPALIVE#__Y")).st.outBytes = 2 ∧
     (bridgeRecvStep (brCfg true (some (bs "secret")))
        { initBrSt with serialReady := true } (bs "X__#KEEPALIVE#__Y")).serialOut = bs "XY")
  ∧ (∀ (cfg : ClientCfg) (st : ClientSt) (c : Char) (rest : Bytes),
      (clientRecvStep cfg st (c :: rest)).st.recvCount
        = st.recvCount + (c :: rest).length) := by
  refine ⟨?_, ?_, by decide, ?_⟩
  · intro cfg st chunk h1 h2
    unfold srvStep
    dsimp only
    simp only [h1, h2, if_true]
    exact ⟨(srvControl_counters cfg _ _).1, srvControl_serialOut cfg _ _⟩
  · intro cfg st chunk hauth hbuf h
    unfold srvStep
    dsimp only
    rw [hbuf]
    simp only [List.nil_append, h, Bool.false_eq_true, if_false]
    unfold srvPayload
    dsimp only [ServerSt.authorized]
    rw [hauth]
    simp
  · intro cfg st c rest
    simp only [clientRecvStep, List.isEmpty_cons, Bool.false_eq_true, if_false]
    repeat' split
    all_goals rfl

/-- Witness for `counters_amended` on concrete control and payload chunks. -/
theorem counters_amended_witness :
    ((srvStep cfgNoPwd (initSt cfgNoPwd) (bs "A__#KEEPALIVE#__B")).st.inBytes
        = (initSt cfgNoPwd).inBytes ∧
     (srvStep cfgNoPwd (initSt cfgNoPwd) (bs "A__#KEEPALIVE#__B")).serialOut = []) ∧
    (srvStep cfgNoPwd (initSt cfgNoPwd) (bs "hello")).st.inBytes
        = (initSt cfgNoPwd).inBytes + (bs "hello").length ∧
    (clientRecvStep clCfg initClSt ('h' :: bs "i")).st.recvCount
        = initClSt.recvCount + ('h' :: bs "i").length :=
  ⟨counters_amended.1 cfgNoPwd (initSt cfgNoPwd) (bs "A__#KEEPALIVE#__B")
      (by decide) (by decide),
   counters_amended.2.1 cfgNoPwd (initSt cfgNoPwd) (bs "hello")
      (by decide) rfl (by decide),
   counters_amended.2.2.2 clCfg initClSt 'h' (bs "i")⟩

/-- C9: the server's query replies are pre-authentication — with a password
configured and the peer still unauthorized, a received `GETVER`,
`GET_KA_TIMEOUT` or `ASK_COM_PARAMS` frame is answered with the `SRV_VER_`,
`MY_KA_TIMEOUT_` or `COM_PARAMS_` frame respectively, disclosing the server's
version and local serial configuration to an unauthenticated peer. -/
theorem preauth_query_disclosure (cfg : ServerCfg) (p ct cv rp : Bytes) (ib ob : Nat)
    (hp : cfg.pwd = some p) :
    ((srvStep cfg (mkSt false [] ct cv rp ib ob) GETVER_CMD).sent = [srvVerFrame cfg] ∧
     (srvStep cfg (mkSt false [] ct cv rp ib ob) GETVER_CMD).st.authorized = false)
  ∧ ((srvStep cfg (mkSt false [] ct cv rp ib ob) GET_KA_TIMEOUT_CMD).sent = [myKaFrame cfg] ∧
     (srvStep cfg (mkSt false [] ct cv rp ib ob) GET_KA_TIMEOUT_CMD).st.authorized = false)
  ∧ ((srvStep cfg (mkSt false [] ct cv rp ib ob) ASK_CMD).sent = [comParamsFrame cfg] ∧
     (srvStep cfg (mkSt false [] ct cv rp ib ob) ASK_CMD).st.authorized = false) :=
  ⟨⟨rfl, rfl⟩, ⟨rfl, rfl⟩, ⟨rfl, rfl⟩⟩

/-- Witness for `preauth_query_disclosure` at the sample password
configuration and a fresh session state. -/
theorem preauth_query_disclosure_witness :
    cfgPwd.pwd = some (bs "secret") ∧
    ((srvStep cfgPwd (mkSt false [] (bs "??") [] (bs "?? ?? ??") 0 0) GETVER_CMD).sent
        = [srvVerFrame cfgPwd] ∧
     (srvStep cfgPwd (mkSt false [] (bs "??") [] (bs "?? ?? ??") 0 0) GETVER_CMD).st.authorized
        = false) :=
  ⟨rfl, (preauth_query_disclosure cfgPwd (bs "secret") (bs "??") [] (bs "?? ?? ??") 0 0 rfl).1⟩

/-- The password block rejects whenever the configured password contains a
`#`: the extracted credential is cut at the first `#` and so never contains
one. -/
theorem pwdHandle_mismatch (cfg : ServerCfg) (p : Bytes) (st : ServerSt) (data : Bytes)
    (hp : cfg.pwd = some p) (hhash : hasSub (bs "#") p = true)
    (hpwd : hasSub (bs "__#PWD_") data = true) :
    pwdHandle cfg st data = { st := st, sent := [BAD_PWD_MSG], broke := true, delayMs := 500 } := by
  unfold pwdHandle
  dsimp only
  rw [hp]
  have hne : (extractPwd data == p) = false := by
    rw [beq_eq_false_iff_ne]
    intro he
    have hclean := extractPwd_hash_clean data
    rw [he, hhash] at hclean
    exact absurd hclean (by simp)
  simp only [hpwd, if_true, hne, Bool.false_eq_true, if_false]

/-- C10: passwords containing `#` can never authenticate — the server
extracts the received credential from a `PWD_` frame as the run up to the
first `#`, so when the configured password itself contains a `#` every
`PWD_<x>` frame compares unequal: the session stays unauthorized, `BADPWD`
is sent, and the connection is closed. -/
theorem hash_pwd_rejected (cfg : ServerCfg) (p : Bytes) (st : ServerSt) (chunk : Bytes)
    (hp : cfg.pwd = some p) (hhash : hasSub (bs "#") p = true)
    (hpwd : hasSub (bs "__#PWD_") (st.packetBuffer ++ chunk) = true)
    (hclose : hasSub (bs "#__") (st.packetBuffer ++ chunk) = true) :
    (srvStep cfg st chunk).st.authorized = st.authorized ∧
    BAD_PWD_MSG ∈ (srvStep cfg st chunk).sent ∧
    (srvStep cfg st chunk).broke = true := by
  have hhdr : hasSub (bs "__#") (st.packetBuffer ++ chunk) = true := by
    have he : bs "__#PWD_" = bs "__#" ++ bs "PWD_" := rfl
    exact hasSub_of_append _ _ _ (he ▸ hpwd)
  unfold srvStep
  dsimp only
  simp only [hhdr, hclose, if_true]
  unfold srvControl
  dsimp only
  rw [pwdHandle_mismatch cfg p _ _ hp hhash hpwd]
  refine ⟨?_, by simp, by simp⟩
  rw [(comParamsUpdate_fields (verFold cfg { st with packetBuffer := [] } _).st _).2.2.2.1]
  rw [verFold_auth_pwd cfg p _ _ hp]

/-- Witness for `hash_pwd_rejected` with configured password `a#b` and the
frame `__#PWD_a#b#__`. -/
theorem hash_pwd_rejected_witness :
    cfgHash.pwd = some (bs "a#b") ∧ hasSub (bs "#") (bs "a#b") = true ∧
    ((srvStep cfgHash (initSt cfgHash) (bs "__#PWD_a#b#__")).st.authorized
        = (initSt cfgHash).authorized ∧
     BAD_PWD_MSG ∈ (srvStep cfgHash (initSt cfgHash) (bs "__#PWD_a#b#__")).sent ∧
     (srvStep cfgHash (initSt cfgHash) (bs "__#PWD_a#b#__")).broke = true) :=
  ⟨rfl, by decide,
    hash_pwd_rejected cfgHash (bs "a#b") (initSt cfgHash) (bs "__#PWD_a#b#__")
      rfl (by decide) (by decide) (by decide)⟩

end SoE
